import Mathlib

/-!
Shallow embedding of the cdk-serverless-web-app-pattern repository.

The repository declares three CDK stacks in one topology file
(WafStack, BackendStack, FrontendStack, plus a deprecated empty main
stack), a Lambda handler (lambda/sample-lambda-1/index.js) and a static
demo page (web/index.html).  The CDK code is declarative: each stack
constructor builds a fixed set of configuration records.  We embed those
records as Lean structures populated with the literal values of the
source, and the two pieces of runtime code (the Lambda handler and the
demo page fetch helper) as pure functions.
-/

namespace Cdk

/-! ## WafStack (src/unnamed/part_000, lines 11 to 46) -/

/-- A WAF rule or default action: allow or block. -/
inductive RuleAction
  | allow
  | block
deriving DecidableEq, Repr

/-- The visibilityConfig record passed to CfnWebACL and to each rule. -/
structure VisibilityConfig where
  sampledRequestsEnabled : Bool
  cloudWatchMetricsEnabled : Bool
  metricName : String
deriving DecidableEq, Repr

/-- Match statement of a WAF rule.  The source uses a single
rateBasedStatement with a request limit and an aggregation key type. -/
inductive RuleStatement
  | rateBased (limit : Nat) (aggregateKeyType : String)
deriving DecidableEq, Repr

/-- One entry of the rules array of a CfnWebACL. -/
structure WafRule where
  name : String
  priority : Nat
  statement : RuleStatement
  action : RuleAction
  visibilityConfig : VisibilityConfig
deriving DecidableEq, Repr

/-- Configuration record of a wafv2.CfnWebACL.  The defaultAction is kept
as an Option so that the construction-time validation of a policy missing
its default action is expressible; the source always supplies one. -/
structure CfnWebACL where
  aclScope : String
  defaultAction : Option RuleAction
  visibilityConfig : VisibilityConfig
  rules : List WafRule
deriving DecidableEq, Repr

/-- The WebACL declared by WafStack: scope CLOUDFRONT, default allow, and
a single rate-based rule named RateLimitRule with limit 2000, aggregation
by IP, action block, priority 1. -/
def webAcl : CfnWebACL :=
  { aclScope := "CLOUDFRONT"
  , defaultAction := some RuleAction.allow
  , visibilityConfig := ⟨true, true, "WebACL"⟩
  , rules :=
      [ { name := "RateLimitRule"
        , priority := 1
        , statement := RuleStatement.rateBased 2000 "IP"
        , action := RuleAction.block
        , visibilityConfig := ⟨true, true, "RateLimitRule"⟩ } ] }

/-- Deploy-time token standing for the attrArn reference of a provisioned
CfnWebACL; FrontendStack receives the WebACL by reference and reads this
attribute when wiring the distribution. -/
def CfnWebACL.attrArn (_acl : CfnWebACL) : String :=
  "Token[WebACL.Arn]"

/-! ## BackendStack (src/unnamed/part_000, lines 48 to 90) -/

/-- A Lambda function declaration: id, runtime, handler entry point and
source asset directory. -/
structure LambdaFunction where
  id : String
  runtime : String
  handlerRef : String
  codeAsset : String
deriving DecidableEq, Repr

def lambdaFunction1 : LambdaFunction :=
  ⟨"ApiHandler1", "NODEJS_18_X", "index.handler", "lambda/sample-lambda-1"⟩

def lambdaFunction2 : LambdaFunction :=
  ⟨"ApiHandler2", "NODEJS_18_X", "index.handler", "lambda/sample-lambda-2"⟩

/-- CORS preflight options of the RestApi. -/
structure CorsOptions where
  allowOrigins : List String
  allowMethods : List String
deriving DecidableEq, Repr

/-- apigateway.Cors.ALL_ORIGINS. -/
def allOrigins : List String := ["*"]

/-- apigateway.Cors.ALL_METHODS. -/
def allMethods : List String :=
  ["OPTIONS", "GET", "PUT", "POST", "DELETE", "PATCH", "HEAD"]

/-- One route of the RestApi: a path, an HTTP method, and the id of the
Lambda integration it targets. -/
structure Route where
  path : String
  method : String
  target : String
deriving DecidableEq, Repr

/-- Configuration of the apigateway.RestApi declared by BackendStack. -/
structure RestApi where
  restApiName : String
  description : String
  corsPreflight : Option CorsOptions
  routes : List Route
deriving DecidableEq, Repr

/-- The RestApi of BackendStack: the root resource gains an api resource
with sub-resources lambda-1 and lambda-2, and each sub-resource declares
one GET method bound to its Lambda integration. -/
def apiGateway : RestApi :=
  { restApiName := "Serverless API"
  , description := "API Gateway for serverless web app"
  , corsPreflight := some ⟨allOrigins, allMethods⟩
  , routes :=
      [ ⟨"/api/lambda-1", "GET", "ApiHandler1"⟩
      , ⟨"/api/lambda-2", "GET", "ApiHandler2"⟩ ] }

/-- Route lookup: the first declared route whose path and method both
match, if any.  An undeclared combination yields none. -/
def routeFor (api : RestApi) (path method : String) : Option String :=
  (api.routes.find? fun r => r.path == path && r.method == method).map Route.target

/-! ## FrontendStack (src/unnamed/part_000, lines 92 to 147) -/

/-- cdk.RemovalPolicy. -/
inductive RemovalPolicy
  | destroy
  | retain
deriving DecidableEq, Repr

/-- s3.BlockPublicAccess settings used by the source. -/
inductive BlockPublicAccess
  | blockAll
  | blockAcls
deriving DecidableEq, Repr

/-- Configuration of the s3.Bucket declared by FrontendStack. -/
structure BucketConfig where
  id : String
  websiteIndexDocument : Option String
  websiteErrorDocument : Option String
  publicReadAccess : Bool
  blockPublicAccess : BlockPublicAccess
  removalPolicy : RemovalPolicy
deriving DecidableEq, Repr

/-- The WebsiteBucket of FrontendStack. -/
def bucket : BucketConfig :=
  { id := "WebsiteBucket"
  , websiteIndexDocument := some "index.html"
  , websiteErrorDocument := some "error.html"
  , publicReadAccess := false
  , blockPublicAccess := BlockPublicAccess.blockAll
  , removalPolicy := RemovalPolicy.destroy }

/-- Origin of a CloudFront behavior: either the bucket reached through an
origin access control broker, or the RestApi front door. -/
inductive OriginKind
  | s3WithOriginAccessControl (bucketId : String)
  | restApiOrigin (apiId : String)
deriving DecidableEq, Repr

/-- cloudfront.ViewerProtocolPolicy. -/
inductive ViewerProtocolPolicy
  | redirectToHttps
  | httpsOnly
  | allowAll
deriving DecidableEq, Repr

/-- cloudfront.CachePolicy choices relevant to the source: the managed
CachingOptimized policy (the CDK default when a behavior leaves the cache
policy unspecified) and the managed CachingDisabled policy. -/
inductive CachePolicy
  | cachingOptimized
  | cachingDisabled
deriving DecidableEq, Repr

/-- One CloudFront behavior.  The default behavior of a distribution has
the implicit path pattern * and, the source not specifying one, the CDK
default cache policy CachingOptimized. -/
structure BehaviorConfig where
  pathPattern : String
  origin : OriginKind
  viewerProtocolPolicy : ViewerProtocolPolicy
  cachePolicy : CachePolicy
deriving DecidableEq, Repr

/-- Configuration of the cloudfront.Distribution of FrontendStack. -/
structure DistributionConfig where
  defaultBehavior : BehaviorConfig
  additionalBehaviors : List BehaviorConfig
  defaultRootObject : String
  webAclId : String
deriving DecidableEq, Repr

/-- The S3 origin: origins.S3BucketOrigin.withOriginAccessControl over the
WebsiteBucket. -/
def s3Origin : OriginKind := OriginKind.s3WithOriginAccessControl bucket.id

/-- The API origin: origins.RestApiOrigin over the BackendStack RestApi. -/
def apiOrigin : OriginKind := OriginKind.restApiOrigin "Api"

/-- The Distribution of FrontendStack: default behavior to the S3 origin
with redirect-to-HTTPS, one additional behavior for /api/* to the API
origin with redirect-to-HTTPS and caching disabled, default root object
index.html, and the WebACL attached through its attrArn reference. -/
def distribution : DistributionConfig :=
  { defaultBehavior :=
      ⟨"*", s3Origin, ViewerProtocolPolicy.redirectToHttps, CachePolicy.cachingOptimized⟩
  , additionalBehaviors :=
      [ ⟨"/api/*", apiOrigin, ViewerProtocolPolicy.redirectToHttps, CachePolicy.cachingDisabled⟩ ]
  , defaultRootObject := "index.html"
  , webAclId := webAcl.attrArn }

/-- All behaviors of a distribution, the default one included. -/
def behaviors (d : DistributionConfig) : List BehaviorConfig :=
  d.defaultBehavior :: d.additionalBehaviors

/-- CloudFront path pattern matching for the patterns the source uses: a
pattern ending in * matches every path extending the part before the *,
and any other pattern matches only itself. -/
def matchesPattern (pattern path : String) : Bool :=
  if pattern.data.getLast? == some '*' then
    pattern.data.dropLast.isPrefixOf path.data
  else
    pattern == path

/-- Behavior selection: the first additional behavior whose pattern
matches the path, and otherwise the default behavior. -/
def selectBehavior (d : DistributionConfig) (path : String) : BehaviorConfig :=
  match d.additionalBehaviors.find? (fun b => matchesPattern b.pathPattern path) with
  | some b => b
  | none => d.defaultBehavior

/-- Deploy-time token standing for the distributionDomainName attribute of
the provisioned distribution. -/
def distributionDomainName : String := "Token[Distribution.DomainName]"

/-- Configuration of the s3deploy.BucketDeployment of FrontendStack. -/
structure BucketDeploymentConfig where
  sources : List String
  destinationBucket : String
  distribution : Option String
  distributionPaths : List String
deriving DecidableEq, Repr

/-- The DeployWebsite deployment: publish the web asset directory into the
WebsiteBucket and invalidate the distribution edge caches for /*. -/
def deployWebsite : BucketDeploymentConfig :=
  { sources := ["web"]
  , destinationBucket := bucket.id
  , distribution := some "Distribution"
  , distributionPaths := ["/*"] }

/-- Content of the web source asset directory published by DeployWebsite:
the directory holds the single file index.html. -/
def webAssets : List String := ["index.html"]

/-! ## Stacks as resource sets -/

/-- A provisioned resource descriptor, tagged by kind. -/
inductive Resource
  | webACL (acl : CfnWebACL)
  | lambdaFn (fn : LambdaFunction)
  | restApi (api : RestApi)
  | s3Bucket (b : BucketConfig)
  | cfDistribution (d : DistributionConfig)
  | bucketDeployment (dep : BucketDeploymentConfig)
  | cfnOutput (id : String) (value : String)
deriving DecidableEq, Repr

def wafStackResources : List Resource := [Resource.webACL webAcl]

def backendStackResources : List Resource :=
  [ Resource.lambdaFn lambdaFunction1
  , Resource.lambdaFn lambdaFunction2
  , Resource.restApi apiGateway ]

def frontendStackResources : List Resource :=
  [ Resource.s3Bucket bucket
  , Resource.cfDistribution distribution
  , Resource.bucketDeployment deployWebsite
  , Resource.cfnOutput "DistributionDomainName" distributionDomainName ]

/-- The deprecated CdkServerlessWebAppPatternStack declares no resource:
its constructor body only calls the base constructor. -/
def mainStackResources : List Resource := []

def allStackResources : List Resource :=
  wafStackResources ++ backendStackResources ++ frontendStackResources ++ mainStackResources

/-- CfnOutput entries of a resource list. -/
def outputsOf (rs : List Resource) : List (String × String) :=
  rs.filterMap fun r =>
    match r with
    | Resource.cfnOutput i v => some (i, v)
    | _ => none

/-- BucketDeployment entries of a resource list. -/
def deploymentsOf (rs : List Resource) : List BucketDeploymentConfig :=
  rs.filterMap fun r =>
    match r with
    | Resource.bucketDeployment dep => some dep
    | _ => none

/-! ## Deployment graph construction -/

/-- Modelled from the spec: the application entry point that wires the
three units into one deployment graph is not under src (only the stack
classes are); the spec requires configuration validation, duplicate rule
priorities and a missing default action, to be rejected at
graph-construction time, before any provisioning side effect occurs. -/
def validateWebAcl (acl : CfnWebACL) : Except String Unit :=
  if acl.defaultAction.isNone then
    Except.error ("missing default action")
  else if (acl.rules.map WafRule.priority).Nodup then
    if (acl.rules.map WafRule.name).Nodup then
      Except.ok ()
    else
      Except.error ("duplicate rule name")
  else
    Except.error ("duplicate rule priority")

/-- A constructed deployment graph: the ordered stacks with their
resources. -/
structure DeploymentGraph where
  stackList : List (String × List Resource)
deriving DecidableEq, Repr

/-- Modelled from the spec: graph construction composes WafStack, then
BackendStack, then FrontendStack, after validating the edge security
configuration; a validation error aborts construction and no stack is
produced. -/
def buildDeploymentGraph (acl : CfnWebACL) : Except String DeploymentGraph :=
  match validateWebAcl acl with
  | Except.error e => Except.error e
  | Except.ok _ =>
      Except.ok
        ⟨[ ("WafStack", [Resource.webACL acl])
         , ("BackendStack", backendStackResources)
         , ("FrontendStack", frontendStackResources) ]⟩

/-- Resources a graph construction outcome hands to the provisioning
engine: none when construction failed. -/
def provisionedResources : Except String DeploymentGraph → List Resource
  | Except.error _ => []
  | Except.ok g => (g.stackList.map Prod.snd).flatten

/-! ## Lambda handler (src/lambda/sample-lambda-1/index.js) -/

/-- A wall-clock instant as the JS Date fields used by toISOString. -/
structure DateTime where
  year : Nat
  month : Nat
  day : Nat
  hour : Nat
  minute : Nat
  second : Nat
  millis : Nat
deriving DecidableEq, Repr

/-- Two-digit zero-padded decimal rendering. -/
def pad2 (n : Nat) : List Char :=
  [Nat.digitChar (n / 10), Nat.digitChar (n % 10)]

/-- Three-digit zero-padded decimal rendering. -/
def pad3 (n : Nat) : List Char :=
  [Nat.digitChar (n / 100), Nat.digitChar (n / 10 % 10), Nat.digitChar (n % 10)]

/-- Four-digit zero-padded decimal rendering. -/
def pad4 (n : Nat) : List Char :=
  [Nat.digitChar (n / 1000), Nat.digitChar (n / 100 % 10),
   Nat.digitChar (n / 10 % 10), Nat.digitChar (n % 10)]

/-- JS Date.toISOString: YYYY-MM-DDTHH:MM:SS.mmmZ. -/
def toISOString (d : DateTime) : String :=
  String.mk
    (pad4 d.year ++ '-' :: pad2 d.month ++ '-' :: pad2 d.day ++
     'T' :: pad2 d.hour ++ ':' :: pad2 d.minute ++ ':' :: pad2 d.second ++
     '.' :: pad3 d.millis ++ ['Z'])

/-- Recognizer for the 24-character ISO-8601 shape produced by JS
Date.toISOString: four digit groups for the date, three for the time,
three fractional digits, and the fixed separators and Z suffix. -/
def isISO8601 (s : String) : Bool :=
  match s.data with
  | [y1, y2, y3, y4, sep1, mo1, mo2, sep2, d1, d2, t, h1, h2, sep3,
     mi1, mi2, sep4, s1, s2, dot, f1, f2, f3, z] =>
      ([y1, y2, y3, y4, mo1, mo2, d1, d2, h1, h2, mi1, mi2, s1, s2,
        f1, f2, f3].all Char.isDigit)
      && sep1 == '-' && sep2 == '-' && t == 'T' && sep3 == ':'
      && sep4 == ':' && dot == '.' && z == 'Z'
  | _ => false

/-- The requestContext object of an API Gateway invocation event; its
requestId may itself be absent. -/
structure RequestContext where
  requestId : Option String
deriving DecidableEq, Repr

/-- The invocation event as far as the handler reads it. -/
structure LambdaEvent where
  requestContext : Option RequestContext
deriving DecidableEq, Repr

/-- The object the handler serializes as the response body. -/
structure ResponseBody where
  message : String
  timestamp : String
  requestId : String
deriving DecidableEq, Repr

/-- The handler response: statusCode, headers and body. -/
structure LambdaResponse where
  statusCode : Nat
  headers : List (String × String)
  body : ResponseBody
deriving DecidableEq, Repr

/-- The sample-lambda-1 handler.  The clock read new Date() is passed as
an explicit argument.  The requestId expression
event.requestContext?.requestId emulates the optional chaining and the
falsy fallback of the source: an absent requestContext, an absent
requestId, or an empty requestId string all fall back to unknown. -/
def handler (event : LambdaEvent) (now : DateTime) : LambdaResponse :=
  let rid : String :=
    match event.requestContext with
    | none => "unknown"
    | some rc =>
        match rc.requestId with
        | none => "unknown"
        | some r => if r == "" then "unknown" else r
  { statusCode := 200
  , headers :=
      [ ("Content-Type", "application/json")
      , ("Access-Control-Allow-Origin", "*")
      , ("Access-Control-Allow-Headers", "Content-Type")
      , ("Access-Control-Allow-Methods", "OPTIONS,POST,GET") ]
  , body :=
      { message := "Hello from sample-lambda-1!"
      , timestamp := toISOString now
      , requestId := rid } }

/-! ## Demo page fetch helper (src/web/index.html, testApi) -/

/-- An observable browser action of the testApi helper: a fetch of an
endpoint, or a write to the result element innerHTML. -/
inductive BrowserEvent
  | fetchCall (endpoint : String)
  | render (html : String)
deriving DecidableEq, Repr

/-- The success innerHTML written when fetch and json both succeed. -/
def successHtml (lambdaName data : String) : String :=
  "<h3>✅ " ++ lambdaName ++ " Response Success!</h3><pre>" ++ data ++ "</pre>"

/-- The failure innerHTML written in the catch branch: it interpolates the
error message of the failure. -/
def errorHtml (lambdaName msg : String) : String :=
  "<h3>❌ " ++ lambdaName ++ " Call Failed</h3><p>Error: " ++ msg ++ "</p>"

/-- The testApi helper as its trace of browser actions: write the calling
notice, perform the single fetch, then write either the success or the
failure markup depending on the fetch outcome.  There is no loop and no
second fetch in the source. -/
def testApi (endpoint lambdaName : String) (fetchResult : Except String String) :
    List BrowserEvent :=
  [ BrowserEvent.render ("Calling " ++ lambdaName ++ "...")
  , BrowserEvent.fetchCall endpoint ] ++
  (match fetchResult with
   | Except.ok data => [BrowserEvent.render (successHtml lambdaName data)]
   | Except.error msg => [BrowserEvent.render (errorHtml lambdaName msg)])

/-- Number of fetch attempts in a trace. -/
def fetchCount (events : List BrowserEvent) : Nat :=
  (events.filter fun e =>
    match e with
    | BrowserEvent.fetchCall _ => true
    | _ => false).length

/-- The innerHTML left displayed at the end of a trace. -/
def displayedResult (events : List BrowserEvent) : Option String :=
  (events.filterMap fun e =>
    match e with
    | BrowserEvent.render h => some h
    | _ => none).getLast?

/-- An edge security configuration with two rules of equal priority, used
to exercise the construction-time validation. -/
def duplicatePriorityAcl : CfnWebACL :=
  { aclScope := "CLOUDFRONT"
  , defaultAction := some RuleAction.allow
  , visibilityConfig := ⟨true, true, "WebACL"⟩
  , rules :=
      [ { name := "RateLimitRule"
        , priority := 1
        , statement := RuleStatement.rateBased 2000 "IP"
        , action := RuleAction.block
        , visibilityConfig := ⟨true, true, "RateLimitRule"⟩ }
      , { name := "SecondRule"
        , priority := 1
        , statement := RuleStatement.rateBased 1000 "IP"
        , action := RuleAction.block
        , visibilityConfig := ⟨true, true, "SecondRule"⟩ } ] }

/-! ## Theorems -/

/-- C4: WafStack produces exactly one FilterPolicy; its default action is
allow and its rule list is exactly one rate-based rule with threshold 2000
aggregated by source IP, action block, priority 1; rule names and
priorities within the policy are unique. -/
theorem c4_filter_policy :
    wafStackResources = [Resource.webACL webAcl] ∧
    webAcl.defaultAction = some RuleAction.allow ∧
    webAcl.rules =
      [ ⟨"RateLimitRule", 1, RuleStatement.rateBased 2000 "IP", RuleAction.block,
         ⟨true, true, "RateLimitRule"⟩⟩ ] ∧
    (webAcl.rules.map WafRule.name).Nodup ∧
    (webAcl.rules.map WafRule.priority).Nodup := by
  refine ⟨rfl, rfl, rfl, ?_, ?_⟩ <;> decide

/-- C6: the WebsiteBucket is declared private, with public read access
disabled and all public access blocked, index.html as its index document
and removal policy destroy. -/
theorem c6_bucket_private :
    bucket.publicReadAccess = false ∧
    bucket.blockPublicAccess = BlockPublicAccess.blockAll ∧
    bucket.websiteIndexDocument = some "index.html" ∧
    bucket.removalPolicy = RemovalPolicy.destroy :=
  ⟨rfl, rfl, rfl, rfl⟩

/-- C7: the stacks declare exactly one BucketDeployment, which publishes
the web asset directory into the WebsiteBucket and invalidates the edge
caches of the distribution for all paths, and exactly one CfnOutput,
the distribution domain name. -/
theorem c7_publish_and_output :
    deploymentsOf allStackResources = [deployWebsite] ∧
    deployWebsite.sources = ["web"] ∧
    deployWebsite.destinationBucket = bucket.id ∧
    deployWebsite.distribution = some "Distribution" ∧
    deployWebsite.distributionPaths = ["/*"] ∧
    outputsOf allStackResources = [("DistributionDomainName", distributionDomainName)] := by
  exact ⟨rfl, rfl, rfl, rfl, rfl, rfl⟩

/-- C9: the deprecated CdkServerlessWebAppPatternStack declares an empty
resource set, and none of the resources of the three live stacks belongs
to it. -/
theorem c9_main_stack_empty :
    mainStackResources = [] ∧
    (allStackResources.all fun r => decide (r ∉ mainStackResources)) = true := by
  refine ⟨rfl, ?_⟩
  simp [mainStackResources]

/-- C10: the WebsiteBucket configures error.html as its website error
document, yet the published web asset set holds only index.html, so the
configured error document is never among the published assets. -/
theorem c10_error_document_unpublished :
    bucket.websiteErrorDocument = some "error.html" ∧
    webAssets = ["index.html"] ∧
    "error.html" ∉ webAssets := by
  refine ⟨rfl, rfl, ?_⟩
  decide

/-- C5: the RouteTable holds exactly two routes, GET /api/lambda-1 to the
first handler and GET /api/lambda-2 to the second, no two routes share a
path and method pair, and any undeclared path and method combination is
not routed. -/
theorem c5_route_table (p m : String)
    (h : (p, m) ∉ apiGateway.routes.map fun r => (r.path, r.method)) :
    apiGateway.routes =
      [ ⟨"/api/lambda-1", "GET", "ApiHandler1"⟩
      , ⟨"/api/lambda-2", "GET", "ApiHandler2"⟩ ] ∧
    (apiGateway.routes.map fun r => (r.path, r.method)).Nodup ∧
    routeFor apiGateway ("/api/lambda-1") ("GET") = some "ApiHandler1" ∧
    routeFor apiGateway ("/api/lambda-2") ("GET") = some "ApiHandler2" ∧
    routeFor apiGateway p m = none := by
  have hnone : apiGateway.routes.find? (fun r => r.path == p && r.method == m) = none := by
    rw [List.find?_eq_none]
    intro r hr hpm
    simp only [Bool.and_eq_true, beq_iff_eq] at hpm
    exact h (List.mem_map.mpr ⟨r, hr, by rw [hpm.1, hpm.2]⟩)
  refine ⟨rfl, by decide, by decide, by decide, ?_⟩
  unfold routeFor
  rw [hnone]
  rfl

/-- Witness for C5: the undeclared combination GET /api/lambda-3 is not
routed, while GET /api/lambda-1 is. -/
theorem c5_route_table_witness :
    routeFor apiGateway ("/api/lambda-3") ("GET") = none ∧
    routeFor apiGateway ("/api/lambda-1") ("GET") = some "ApiHandler1" := by
  have h := c5_route_table ("/api/lambda-3") ("GET") (by decide)
  exact ⟨h.2.2.2.2, h.2.2.1⟩

/-- C1: the Distribution declares exactly one default behavior, pattern *,
origin the bucket through origin access control, redirect to HTTPS, and
exactly one additional behavior for /api/* with the RestApi origin,
redirect to HTTPS and caching disabled; it attaches the WebACL by its
attrArn reference; every path matched by the /api/* pattern selects the
uncachable behavior, while / selects the default cacheable behavior. -/
theorem c1_distribution_behaviors (p : String)
    (hp : matchesPattern ("/api/*") p = true) :
    distribution.defaultBehavior =
      ⟨"*", s3Origin, ViewerProtocolPolicy.redirectToHttps, CachePolicy.cachingOptimized⟩ ∧
    distribution.additionalBehaviors =
      [⟨"/api/*", apiOrigin, ViewerProtocolPolicy.redirectToHttps, CachePolicy.cachingDisabled⟩] ∧
    ((behaviors distribution).filter fun b => b.pathPattern == "*").length = 1 ∧
    distribution.webAclId = webAcl.attrArn ∧
    (selectBehavior distribution p).cachePolicy = CachePolicy.cachingDisabled ∧
    (selectBehavior distribution p).origin = apiOrigin ∧
    (selectBehavior distribution ("/")).cachePolicy = CachePolicy.cachingOptimized ∧
    (selectBehavior distribution ("/")).origin = s3Origin := by
  have hsel : selectBehavior distribution p =
      ⟨"/api/*", apiOrigin, ViewerProtocolPolicy.redirectToHttps, CachePolicy.cachingDisabled⟩ := by
    simp [selectBehavior, distribution, List.find?_cons, hp]
  refine ⟨rfl, rfl, by decide, rfl, ?_, ?_, by decide, by decide⟩
  · rw [hsel]
  · rw [hsel]

/-- Witness for C1: /api/lambda-1 matches the /api/* pattern and selects
the caching-disabled behavior. -/
theorem c1_distribution_behaviors_witness :
    matchesPattern ("/api/*") ("/api/lambda-1") = true ∧
    (selectBehavior distribution ("/api/lambda-1")).cachePolicy = CachePolicy.cachingDisabled := by
  have h := c1_distribution_behaviors ("/api/lambda-1") (by decide)
  exact ⟨by decide, h.2.2.2.2.1⟩

/-- C2: constructing the deployment graph over an edge security unit whose
rule priorities are not unique, or whose default action is missing, fails
at graph-construction time and hands no resource to provisioning. -/
theorem c2_validation_rejects (acl : CfnWebACL)
    (h : ¬ (acl.rules.map WafRule.priority).Nodup ∨ acl.defaultAction = none) :
    (∃ e, buildDeploymentGraph acl = Except.error e) ∧
    provisionedResources (buildDeploymentGraph acl) = [] := by
  have herr : ∃ e, validateWebAcl acl = Except.error e := by
    unfold validateWebAcl
    rcases h with h | h
    · cases hda : acl.defaultAction.isNone
      · refine ⟨"duplicate rule priority", ?_⟩
        simp [hda, h]
      · exact ⟨"missing default action", by simp [hda]⟩
    · exact ⟨"missing default action", by simp [h]⟩
  obtain ⟨e, he⟩ := herr
  refine ⟨⟨e, ?_⟩, ?_⟩
  · unfold buildDeploymentGraph
    rw [he]
  · unfold provisionedResources buildDeploymentGraph
    rw [he]

/-- Witness for C2: an edge security unit with two rules of equal
priority 1 is rejected and provisions nothing. -/
theorem c2_validation_rejects_witness :
    ¬ ((duplicatePriorityAcl.rules.map WafRule.priority).Nodup) ∧
    provisionedResources (buildDeploymentGraph duplicatePriorityAcl) = [] := by
  refine ⟨by decide, ?_⟩
  exact (c2_validation_rejects duplicatePriorityAcl (Or.inl (by decide))).2

/-- C8: when the fetch of a compute endpoint fails, the demo page leaves
displayed an error markup containing the failure text, and the trace holds
exactly one fetch attempt whatever the outcome. -/
theorem c8_error_display (endpoint lambdaName msg : String)
    (res : Except String String) :
    fetchCount (testApi endpoint lambdaName res) = 1 ∧
    (∃ pre post,
      displayedResult (testApi endpoint lambdaName (Except.error msg)) =
        some (pre ++ msg ++ post)) := by
  constructor
  · cases res <;> rfl
  · refine ⟨"<h3>❌ " ++ lambdaName ++ " Call Failed</h3><p>Error: ", "</p>", ?_⟩
    simp [testApi, displayedResult, errorHtml, String.append_assoc]

/-- Digits below ten render as digit characters. -/
theorem digitChar_isDigit (n : Nat) (h : n < 10) : (Nat.digitChar n).isDigit = true := by
  interval_cases n <;> decide

/-- C3: for every invocation event and clock reading with in-range date
fields, the sample-lambda-1 handler returns status 200 and a body whose
message is the fixed greeting, whose timestamp has the ISO-8601 shape of
Date.toISOString, and whose requestId equals the request identifier of the
invocation context when one is available and the literal unknown when the
context, the identifier, or its content is absent. -/
theorem c3_handler_contract (e : LambdaEvent) (d : DateTime)
    (hy : d.year ≤ 9999) (hmo : d.month ≤ 12) (hd : d.day ≤ 31)
    (hh : d.hour ≤ 23) (hmi : d.minute ≤ 59) (hs : d.second ≤ 59)
    (hms : d.millis ≤ 999) :
    (handler e d).statusCode = 200 ∧
    (handler e d).body.message = "Hello from sample-lambda-1!" ∧
    isISO8601 ((handler e d).body.timestamp) = true ∧
    (∀ rid : String, e.requestContext = some ⟨some rid⟩ → rid ≠ "" →
      (handler e d).body.requestId = rid) ∧
    ((e.requestContext = none ∨ e.requestContext = some ⟨none⟩ ∨
        e.requestContext = some ⟨some ""⟩) →
      (handler e d).body.requestId = "unknown") := by
  have h1 : (Nat.digitChar (d.year / 1000)).isDigit = true := digitChar_isDigit _ (by omega)
  have h2 : (Nat.digitChar (d.year / 100 % 10)).isDigit = true := digitChar_isDigit _ (by omega)
  have h3 : (Nat.digitChar (d.year / 10 % 10)).isDigit = true := digitChar_isDigit _ (by omega)
  have h4 : (Nat.digitChar (d.year % 10)).isDigit = true := digitChar_isDigit _ (by omega)
  have h5 : (Nat.digitChar (d.month / 10)).isDigit = true := digitChar_isDigit _ (by omega)
  have h6 : (Nat.digitChar (d.month % 10)).isDigit = true := digitChar_isDigit _ (by omega)
  have h7 : (Nat.digitChar (d.day / 10)).isDigit = true := digitChar_isDigit _ (by omega)
  have h8 : (Nat.digitChar (d.day % 10)).isDigit = true := digitChar_isDigit _ (by omega)
  have h9 : (Nat.digitChar (d.hour / 10)).isDigit = true := digitChar_isDigit _ (by omega)
  have h10 : (Nat.digitChar (d.hour % 10)).isDigit = true := digitChar_isDigit _ (by omega)
  have h11 : (Nat.digitChar (d.minute / 10)).isDigit = true := digitChar_isDigit _ (by omega)
  have h12 : (Nat.digitChar (d.minute % 10)).isDigit = true := digitChar_isDigit _ (by omega)
  have h13 : (Nat.digitChar (d.second / 10)).isDigit = true := digitChar_isDigit _ (by omega)
  have h14 : (Nat.digitChar (d.second % 10)).isDigit = true := digitChar_isDigit _ (by omega)
  have h15 : (Nat.digitChar (d.millis / 100)).isDigit = true := digitChar_isDigit _ (by omega)
  have h16 : (Nat.digitChar (d.millis / 10 % 10)).isDigit = true := digitChar_isDigit _ (by omega)
  have h17 : (Nat.digitChar (d.millis % 10)).isDigit = true := digitChar_isDigit _ (by omega)
  have hts : isISO8601 (toISOString d) = true := by
    unfold toISOString isISO8601 pad4 pad3 pad2
    simp [h1, h2, h3, h4, h5, h6, h7, h8, h9, h10, h11, h12, h13, h14, h15, h16, h17]
  refine ⟨rfl, rfl, hts, ?_, ?_⟩
  · intro rid hctx hne
    simp [handler, hctx, hne]
  · intro hcase
    rcases hcase with hc | hc | hc <;> simp [handler, hc]

/-- Witness for C3: a concrete invocation with a request identifier and a
concrete clock reading. -/
theorem c3_handler_contract_witness :
    (handler ⟨some ⟨some "test-request-id"⟩⟩ ⟨2026, 10, 11, 12, 30, 45, 123⟩).statusCode = 200 ∧
    (handler ⟨some ⟨some "test-request-id"⟩⟩ ⟨2026, 10, 11, 12, 30, 45, 123⟩).body.requestId =
      "test-request-id" ∧
    isISO8601
      ((handler ⟨some ⟨some "test-request-id"⟩⟩ ⟨2026, 10, 11, 12, 30, 45, 123⟩).body.timestamp) =
      true := by
  have h := c3_handler_contract ⟨some ⟨some "test-request-id"⟩⟩ ⟨2026, 10, 11, 12, 30, 45, 123⟩
    (by decide) (by decide) (by decide) (by decide) (by decide) (by decide) (by decide)
  exact ⟨h.1, h.2.2.2.1 ("test-request-id") rfl (by decide), h.2.2.1⟩

end Cdk
